import Mathlib

/-!
Verification of the relm core message-passing substrate
(src/core/stream.rs, src/core/channel.rs, src/core/source.rs).

The Rust code is shallowly embedded: the mutable state behind the
`Rc<RefCell<...>>` cells becomes explicit state passing, and the side
effects of invoking closures (observers, the primary callback) are
recorded in an explicit trace of events.  Closures themselves are opaque:
an observer is identified by the `Nat` id under which it was registered,
and the primary-callback slot is modelled by whether it is set (the code
never inspects the closure, only whether the `Option` is `Some`).
-/

namespace Relm

/-- One externally observable step performed by the stream machinery:
`obs id msg` records observer `id` being invoked with a read-only view of
`msg`; `push msg` records `msg` being appended to the back of the pending
queue; `pop msg` records `msg` being popped from the front of the queue by
`dispatch`; `cb msg` records the primary callback being invoked with
ownership of `msg`. -/
inductive Ev (MSG : Type) where
  | obs (id : Nat) (msg : MSG)
  | push (msg : MSG)
  | pop (msg : MSG)
  | cb (msg : MSG)
  deriving DecidableEq

/-- `EventStreamData` from stream.rs: the FIFO queue of pending events
(front of the `VecDeque` at the head of the list), the `locked` flag, and
the registration-ordered observer list (observers are opaque closures,
represented by their ids). -/
structure EventStreamData (MSG : Type) where
  events : List MSG
  locked : Bool
  observers : List Nat
  deriving DecidableEq

/-- The free function `emit` from stream.rs lines 41-51: if the stream is
not locked, every observer currently in the list is invoked in order with
a read-only view of `msg`, then `msg` is pushed to the back of the queue.
If the stream is locked, nothing at all happens.  Returns the new state
and the trace of the effects in the order the code performs them. -/
def emit {MSG : Type} (stream : EventStreamData MSG) (msg : MSG) :
    EventStreamData MSG × List (Ev MSG) :=
  if !stream.locked then
    ({ stream with events := stream.events ++ [msg] },
     stream.observers.map (fun id => Ev.obs id msg) ++ [Ev.push msg])
  else
    (stream, [])

/-- `SourceData` from stream.rs: the shared primary-callback slot
(modelled by whether the `Option<Box<dyn FnMut(MSG)>>` is set) and the
shared stream state. -/
structure SourceData (MSG : Type) where
  callback : Bool
  stream : EventStreamData MSG
  deriving DecidableEq

/-- `SourceFuncs::dispatch` for `SourceData` (stream.rs lines 23-29): pop
the front event first, then, only if both an event was popped and a
primary callback is set, invoke the callback with the event; always
return `true` (stay armed). -/
def SourceData.dispatch {MSG : Type} (sd : SourceData MSG) :
    SourceData MSG × List (Ev MSG) × Bool :=
  match sd.stream.events with
  | [] => (sd, [], true)
  | event :: rest =>
    let sd1 : SourceData MSG := { sd with stream := { sd.stream with events := rest } }
    if sd.callback then (sd1, [Ev.pop event, Ev.cb event], true)
    else (sd1, [Ev.pop event], true)

/-- `SourceFuncs::prepare` for `SourceData` (stream.rs lines 31-33):
ready iff the queue is non-empty, never any timeout. -/
def SourceData.prepare {MSG : Type} (sd : SourceData MSG) : Bool × Option Nat :=
  (!sd.stream.events.isEmpty, none)

/-- A sequence of `emit` calls, threading the state and concatenating the
traces. -/
def emitList {MSG : Type} : EventStreamData MSG → List MSG →
    EventStreamData MSG × List (Ev MSG)
  | s, [] => (s, [])
  | s, m :: rest =>
    let r1 := emit s m
    let r2 := emitList r1.1 rest
    (r2.1, r1.2 ++ r2.2)

/-- `n` consecutive dispatch cycles of the stream source, threading the
state and concatenating the traces. -/
def dispatchN {MSG : Type} : SourceData MSG → Nat → SourceData MSG × List (Ev MSG)
  | sd, 0 => (sd, [])
  | sd, n + 1 =>
    let r1 := sd.dispatch
    let r2 := dispatchN r1.1 n
    (r2.1, r1.2.1 ++ r2.2)

/-- The messages delivered to the primary callback, in order, extracted
from a trace. -/
def cbTrace {MSG : Type} : List (Ev MSG) → List MSG
  | [] => []
  | Ev.obs _ _ :: rest => cbTrace rest
  | Ev.push _ :: rest => cbTrace rest
  | Ev.pop _ :: rest => cbTrace rest
  | Ev.cb m :: rest => m :: cbTrace rest

/-- The trace produced by fully draining a queue `q` with a primary
callback set: each message is popped and then delivered, in queue order. -/
def popCbTrace {MSG : Type} : List MSG → List (Ev MSG)
  | [] => []
  | m :: rest => Ev.pop m :: Ev.cb m :: popCbTrace rest

/-- `EventStream::emit` (stream.rs lines 116-119): delegates to the free
function `emit` on the shared stream state. -/
def EventStream.emit {MSG : Type} (s : EventStreamData MSG) (msg : MSG) :
    EventStreamData MSG × List (Ev MSG) :=
  Relm.emit s msg

/-- `EventStream::lock` (stream.rs lines 122-128): sets `locked := true`;
the returned `Lock` guard holds a handle to this same stream. -/
def EventStream.lock {MSG : Type} (s : EventStreamData MSG) : EventStreamData MSG :=
  { s with locked := true }

/-- `EventStream::observe` (stream.rs lines 132-135): appends the new
observer to the observer list. -/
def EventStream.observe {MSG : Type} (s : EventStreamData MSG) (obsId : Nat) :
    EventStreamData MSG :=
  { s with observers := s.observers ++ [obsId] }

/-- `EventStream::set_callback` (stream.rs lines 140-143): replaces the
primary-callback slot with the new callback. -/
def EventStream.set_callback {MSG : Type} (sd : SourceData MSG) : SourceData MSG :=
  { sd with callback := true }

/-- Result of a `StreamHandle` operation: either it resolved the weak
reference and behaved like the stream method, or the owning stream was
gone and the operation panicked with the given message. -/
inductive HandleResult (α : Type) where
  | ok (val : α)
  | panicked (msg : String)
  deriving DecidableEq

/-- `StreamHandle::emit` (stream.rs lines 171-177).  The argument is the
result of `Weak::upgrade`: `some s` when the owning `EventStream` is
alive with state `s`, `none` after it has been dropped. -/
def StreamHandle.emit {MSG : Type} (upgraded : Option (EventStreamData MSG)) (msg : MSG) :
    HandleResult (EventStreamData MSG × List (Ev MSG)) :=
  match upgraded with
  | some stream => HandleResult.ok (Relm.emit stream msg)
  | none => HandleResult.panicked "Trying to call emit() on a dropped EventStream"

/-- `StreamHandle::lock` (stream.rs lines 180-189): on a live stream sets
`locked := true` and returns a guard; on a dead stream panics. -/
def StreamHandle.lock {MSG : Type} (upgraded : Option (EventStreamData MSG)) :
    HandleResult (EventStreamData MSG) :=
  match upgraded with
  | some stream => HandleResult.ok { stream with locked := true }
  | none => HandleResult.panicked "Trying to call lock() on a dropped EventStream"

/-- `StreamHandle::unlock` (stream.rs lines 191-197): on a live stream
sets `locked := false` unconditionally; on a dead stream panics. -/
def StreamHandle.unlock {MSG : Type} (upgraded : Option (EventStreamData MSG)) :
    HandleResult (EventStreamData MSG) :=
  match upgraded with
  | some stream => HandleResult.ok { stream with locked := false }
  | none => HandleResult.panicked "Trying to call unlock() on a dropped EventStream"

/-- `StreamHandle::observe` (stream.rs lines 201-207): on a live stream
appends the observer; on a dead stream panics. -/
def StreamHandle.observe {MSG : Type} (upgraded : Option (EventStreamData MSG)) (obsId : Nat) :
    HandleResult (EventStreamData MSG) :=
  match upgraded with
  | some stream => HandleResult.ok { stream with observers := stream.observers ++ [obsId] }
  | none => HandleResult.panicked "Trying to call observe() on a dropped EventStream"

/-- `Drop for Lock` (stream.rs lines 215-219): releasing the guard calls
`unlock` on the handle it holds.  Rust runs this on every exit path of
the scope holding the guard. -/
def Lock.drop {MSG : Type} (upgraded : Option (EventStreamData MSG)) :
    HandleResult (EventStreamData MSG) :=
  StreamHandle.unlock upgraded

/-- `ChannelData` from channel.rs: the one-slot lookahead buffer
`peeked_value` and the consuming end of the mpsc transport (the list of
messages currently in the transport, front first).  The callback is
always present in the Rust struct; its invocation is modelled by the
`Option MSG` delivered-message output of `dispatch`. -/
structure ChannelData (MSG : Type) where
  peeked_value : Option MSG
  receiver : List MSG
  deriving DecidableEq

/-- `std::sync::mpsc::Receiver::try_recv().ok()`: non-blocking receive,
yielding the front message of the transport if any, never blocking. -/
def tryRecv {MSG : Type} : List MSG → Option MSG × List MSG
  | [] => (none, [])
  | m :: rest => (some m, rest)

/-- `SourceFuncs::dispatch` for `RefCell<ChannelData>` (channel.rs lines
66-78): take the lookahead value if present, otherwise try one
non-blocking receive; if that produced a message, invoke the callback
with it; always return `true`. -/
def ChannelData.dispatch {MSG : Type} (d : ChannelData MSG) :
    ChannelData MSG × Option MSG × Bool :=
  match d.peeked_value with
  | some m => ({ d with peeked_value := none }, some m, true)
  | none =>
    let r := tryRecv d.receiver
    ({ d with receiver := r.2 }, r.1, true)

/-- `SourceFuncs::prepare` for `RefCell<ChannelData>` (channel.rs lines
80-87): if the lookahead slot is full, ready with no timeout; otherwise
try a non-blocking receive, cache the result in the lookahead slot, and
report ready iff it produced a message; never any timeout. -/
def ChannelData.prepare {MSG : Type} (d : ChannelData MSG) :
    ChannelData MSG × Bool × Option Nat :=
  if d.peeked_value.isSome then (d, true, none)
  else
    let r := tryRecv d.receiver
    let d1 : ChannelData MSG := { peeked_value := r.1, receiver := r.2 }
    (d1, d1.peeked_value.isSome, none)

/-- State of the `std::sync::mpsc` transport as seen by a `Sender`: the
queued messages and whether the receiving end is still alive.  Modelled
from the documented std semantics: `send` succeeds and enqueues iff the
receiver has not been dropped. -/
structure MpscState (MSG : Type) where
  queue : List MSG
  receiverAlive : Bool
  deriving DecidableEq

/-- Result of `mpsc::Sender::send`: `ok`, or `sendError msg` returning
the unsent message when the receiving end has been destroyed. -/
inductive SendResult (MSG : Type) where
  | ok
  | sendError (msg : MSG)
  deriving DecidableEq

/-- `std::sync::mpsc::Sender::send`: enqueue if the receiver is alive,
otherwise fail with the message handed back and the queue untouched. -/
def mpscSend {MSG : Type} (ch : MpscState MSG) (msg : MSG) :
    MpscState MSG × SendResult MSG :=
  if ch.receiverAlive then ({ ch with queue := ch.queue ++ [msg] }, SendResult.ok)
  else (ch, SendResult.sendError msg)

/-- `glib::MainContext::wakeup`, modelled as counting wakeup signals sent
to the target loop. -/
def wakeup (wakeups : Nat) : Nat := wakeups + 1

/-- `Sender::send` (channel.rs lines 30-35): push into the mpsc
transport, then wake the target main loop unconditionally, and return
the transport's result. -/
def Sender.send {MSG : Type} (ch : MpscState MSG) (wakeups : Nat) (msg : MSG) :
    MpscState MSG × Nat × SendResult MSG :=
  let result := mpscSend ch msg
  (result.1, wakeup wakeups, result.2)

/-- Helper: `emit` on an unlocked stream notifies the current observers
in order and then appends the message. -/
theorem emit_unlocked {MSG : Type} (s : EventStreamData MSG) (msg : MSG)
    (h : s.locked = false) :
    emit s msg = ({ s with events := s.events ++ [msg] },
      s.observers.map (fun id => Ev.obs id msg) ++ [Ev.push msg]) := by
  simp [emit, h]

/-- Helper: `emit` on a locked stream is a no-op. -/
theorem emit_locked {MSG : Type} (s : EventStreamData MSG) (msg : MSG)
    (h : s.locked = true) :
    emit s msg = (s, []) := by
  simp [emit, h]

/-- Helper: a sequence of emits on an unlocked stream appends exactly the
emitted messages, preserves the flag and observers. -/
theorem emitList_unlocked {MSG : Type} (msgs : List MSG) (s : EventStreamData MSG)
    (h : s.locked = false) :
    (emitList s msgs).1 = { s with events := s.events ++ msgs } := by
  induction msgs generalizing s with
  | nil => simp [emitList]
  | cons m rest ih =>
    simp only [emitList, emit_unlocked s m h]
    rw [ih { s with events := s.events ++ [m] } h]
    simp

/-- Helper: dispatching the stream source with an empty queue changes
nothing, delivers nothing, and stays armed. -/
theorem dispatch_empty {MSG : Type} (sd : SourceData MSG)
    (h : sd.stream.events = []) :
    sd.dispatch = (sd, [], true) := by
  simp [SourceData.dispatch, h]

/-- Helper: any number of dispatch cycles on an empty queue is a no-op. -/
theorem dispatchN_empty {MSG : Type} (sd : SourceData MSG)
    (h : sd.stream.events = []) (n : Nat) :
    dispatchN sd n = (sd, []) := by
  induction n with
  | zero => rfl
  | succ k ih => simp [dispatchN, dispatch_empty sd h, ih]

/-- Helper: with a primary callback set, at least `q.length` dispatch
cycles drain the queue `q` completely, delivering each message exactly
once in queue order. -/
theorem dispatchN_drain {MSG : Type} (q : List MSG) (lk : Bool) (obs : List Nat)
    (n : Nat) (hn : q.length ≤ n) :
    dispatchN ⟨true, ⟨q, lk, obs⟩⟩ n = (⟨true, ⟨[], lk, obs⟩⟩, popCbTrace q) := by
  induction q generalizing n with
  | nil => simpa [popCbTrace] using dispatchN_empty ⟨true, ⟨[], lk, obs⟩⟩ rfl n
  | cons m rest ih =>
    match n, hn with
    | n + 1, hn =>
      have hrest : rest.length ≤ n := by simpa using hn
      simp [dispatchN, SourceData.dispatch, ih n hrest, popCbTrace]

/-- Helper: the callback-delivery projection of a full drain trace is the
queue itself. -/
theorem cbTrace_popCbTrace {MSG : Type} (q : List MSG) :
    cbTrace (popCbTrace q) = q := by
  induction q with
  | nil => rfl
  | cons m rest ih => simp [popCbTrace, cbTrace, ih]

/-- Claim C1: for every sequence of emit calls on an EventStream made
while the stream is unlocked, repeated dispatch cycles (here: any number
of cycles at least the size of the resulting queue) deliver every emitted
message to the primary callback exactly once, in exactly the order the
messages were emitted (strict FIFO), with no message skipped or
duplicated, and afterwards the queue is empty. -/
theorem c1_unlocked_fifo_exactly_once {MSG : Type} (sd : SourceData MSG)
    (msgs : List MSG) (n : Nat)
    (hcb : sd.callback = true) (hlk : sd.stream.locked = false)
    (hn : sd.stream.events.length + msgs.length ≤ n) :
    cbTrace (dispatchN { sd with stream := (emitList sd.stream msgs).1 } n).2
      = sd.stream.events ++ msgs ∧
    (dispatchN { sd with stream := (emitList sd.stream msgs).1 } n).1.stream.events = [] := by
  obtain ⟨cb, st⟩ := sd
  obtain ⟨ev, lk, obs⟩ := st
  simp only at hcb hlk hn
  subst hcb
  subst hlk
  have he := emitList_unlocked msgs ⟨ev, false, obs⟩ rfl
  have hd := dispatchN_drain (ev ++ msgs) false obs n (by simpa using hn)
  simp only [he]
  simp only at hd ⊢
  rw [hd]
  exact ⟨cbTrace_popCbTrace _, rfl⟩

/-- Witness for C1: from an empty unlocked stream with a callback set,
emitting 10, 20, 30 and running three dispatch cycles delivers exactly
10, 20, 30 in order and empties the queue. -/
theorem c1_unlocked_fifo_exactly_once_witness :
    cbTrace (dispatchN { (⟨true, ⟨[], false, []⟩⟩ : SourceData Nat) with
        stream := (emitList (⟨[], false, []⟩ : EventStreamData Nat) [10, 20, 30]).1 } 3).2
      = [] ++ [10, 20, 30] ∧
    (dispatchN { (⟨true, ⟨[], false, []⟩⟩ : SourceData Nat) with
        stream := (emitList (⟨[], false, []⟩ : EventStreamData Nat) [10, 20, 30]).1 } 3).1.stream.events
      = [] :=
  c1_unlocked_fifo_exactly_once ⟨true, ⟨[], false, []⟩⟩ [10, 20, 30] 3 rfl rfl (by decide)

/-- Claim C2: an emit on a locked stream invokes no observer, never
reaches the primary callback, leaves the whole state (queue included)
unchanged, and the message never reappears after the stream is unlocked
and further messages are emitted: it is dropped, not buffered. -/
theorem c2_locked_emit_silently_dropped {MSG : Type} (s : EventStreamData MSG)
    (msg : MSG) (later : List MSG)
    (hlk : s.locked = true) (hfresh : msg ∉ s.events) (hlater : msg ∉ later) :
    emit s msg = (s, []) ∧
    msg ∉ (emitList { (emit s msg).1 with locked := false } later).1.events := by
  have h1 := emit_locked s msg hlk
  refine ⟨h1, ?_⟩
  rw [h1]
  rw [emitList_unlocked later { s with locked := false } rfl]
  simp only [List.mem_append]
  rintro (h | h)
  · exact hfresh h
  · exact hlater h

/-- Witness for C2: on the locked stream with queue [1], emitting 2 is a
complete no-op, and after unlocking and emitting 3 the message 2 is still
absent from the queue. -/
theorem c2_locked_emit_silently_dropped_witness :
    (⟨[1], true, [0]⟩ : EventStreamData Nat).locked = true ∧
    (2 : Nat) ∉ [1] ∧ (2 : Nat) ∉ [3] ∧
    (emit (⟨[1], true, [0]⟩ : EventStreamData Nat) 2 = (⟨[1], true, [0]⟩, []) ∧
     (2 : Nat) ∉ (emitList { (emit (⟨[1], true, [0]⟩ : EventStreamData Nat) 2).1 with
        locked := false } [3]).1.events) :=
  ⟨rfl, by decide, by decide,
   c2_locked_emit_silently_dropped ⟨[1], true, [0]⟩ 2 [3] rfl (by decide) (by decide)⟩

/-- Claim C3: an emit on an unlocked stream invokes exactly the observers
registered at that moment, synchronously, in registration order, each
with a read-only view of the message, all strictly before the message is
pushed onto the queue (the trace ends with the push); the state change is
exactly appending the message to the queue; and an observer id not
registered at emit time is never invoked with that message. -/
theorem c3_observers_before_queue_in_order {MSG : Type} (s : EventStreamData MSG)
    (msg : MSG) (hlk : s.locked = false) :
    (emit s msg).2 = s.observers.map (fun id => Ev.obs id msg) ++ [Ev.push msg] ∧
    (emit s msg).1 = { s with events := s.events ++ [msg] } ∧
    (∀ id, id ∉ s.observers → Ev.obs id msg ∉ (emit s msg).2) := by
  rw [emit_unlocked s msg hlk]
  refine ⟨rfl, rfl, ?_⟩
  intro id hid hmem
  simp only [List.mem_append, List.mem_map, List.mem_singleton] at hmem
  rcases hmem with ⟨a, ha, hEq⟩ | hEq
  · cases hEq
    exact hid ha
  · cases hEq

/-- Witness for C3: with observers 4 and 9 registered, emitting 7 invokes
observer 4 then observer 9 then pushes, and observer 5 is never invoked. -/
theorem c3_observers_before_queue_in_order_witness :
    (⟨[], false, [4, 9]⟩ : EventStreamData Nat).locked = false ∧
    ((emit (⟨[], false, [4, 9]⟩ : EventStreamData Nat) 7).2
        = [Ev.obs 4 7, Ev.obs 9 7] ++ [Ev.push 7] ∧
     (emit (⟨[], false, [4, 9]⟩ : EventStreamData Nat) 7).1 = ⟨[] ++ [7], false, [4, 9]⟩ ∧
     (∀ id, id ∉ [4, 9] → Ev.obs id 7 ∉ (emit (⟨[], false, [4, 9]⟩ : EventStreamData Nat) 7).2)) :=
  ⟨rfl, c3_observers_before_queue_in_order ⟨[], false, [4, 9]⟩ 7 rfl⟩

/-- Claim C4: every mutating StreamHandle operation (emit, lock, observe,
and the Lock guard's unlock-on-drop) invoked after the owning EventStream
has been dropped (weak upgrade yields none) panics with a fatal
use-after-teardown message; none of them is a silent no-op or returns a
recoverable result. -/
theorem c4_dead_handle_operations_panic {MSG : Type} (msg : MSG) (obsId : Nat) :
    StreamHandle.emit (none : Option (EventStreamData MSG)) msg
      = HandleResult.panicked "Trying to call emit() on a dropped EventStream" ∧
    StreamHandle.lock (none : Option (EventStreamData MSG))
      = HandleResult.panicked "Trying to call lock() on a dropped EventStream" ∧
    StreamHandle.observe (none : Option (EventStreamData MSG)) obsId
      = HandleResult.panicked "Trying to call observe() on a dropped EventStream" ∧
    Lock.drop (none : Option (EventStreamData MSG))
      = HandleResult.panicked "Trying to call unlock() on a dropped EventStream" :=
  ⟨rfl, rfl, rfl, rfl⟩

/-- Witness for C4 at message type Nat: all four dead-handle operations
panic with their use-after-teardown messages. -/
theorem c4_dead_handle_operations_panic_witness :
    StreamHandle.emit (none : Option (EventStreamData Nat)) 3
      = HandleResult.panicked "Trying to call emit() on a dropped EventStream" ∧
    StreamHandle.lock (none : Option (EventStreamData Nat))
      = HandleResult.panicked "Trying to call lock() on a dropped EventStream" ∧
    StreamHandle.observe (none : Option (EventStreamData Nat)) 0
      = HandleResult.panicked "Trying to call observe() on a dropped EventStream" ∧
    Lock.drop (none : Option (EventStreamData Nat))
      = HandleResult.panicked "Trying to call unlock() on a dropped EventStream" :=
  c4_dead_handle_operations_panic 3 0

/-- Claim C5: Sender::send pushes the message into the mpsc transport and
then wakes the target loop unconditionally; it succeeds exactly when the
receiving end is still alive (enqueueing the message at the back), and
when the receiver has been destroyed it returns the closed-channel error
carrying the message, leaving the transport untouched. -/
theorem c5_send_closed_channel_error {MSG : Type} (ch : MpscState MSG)
    (w : Nat) (msg : MSG) :
    ((Sender.send ch w msg).2.2 = SendResult.ok ↔ ch.receiverAlive = true) ∧
    (Sender.send ch w msg).2.1 = wakeup w ∧
    (ch.receiverAlive = true →
      (Sender.send ch w msg).1 = { ch with queue := ch.queue ++ [msg] }) ∧
    (ch.receiverAlive = false →
      Sender.send ch w msg = (ch, wakeup w, SendResult.sendError msg)) := by
  obtain ⟨q, alive⟩ := ch
  cases alive <;> simp [Sender.send, mpscSend, wakeup]

/-- Witness for C5 on a closed channel with queue [1]: sending 2 wakes
the loop, fails with the closed-channel error carrying 2, and leaves the
transport untouched. -/
theorem c5_send_closed_channel_error_witness :
    ((Sender.send (⟨[1], false⟩ : MpscState Nat) 0 2).2.2 = SendResult.ok ↔
      (⟨[1], false⟩ : MpscState Nat).receiverAlive = true) ∧
    (Sender.send (⟨[1], false⟩ : MpscState Nat) 0 2).2.1 = wakeup 0 ∧
    ((⟨[1], false⟩ : MpscState Nat).receiverAlive = true →
      (Sender.send (⟨[1], false⟩ : MpscState Nat) 0 2).1 = ⟨[1] ++ [2], false⟩) ∧
    ((⟨[1], false⟩ : MpscState Nat).receiverAlive = false →
      Sender.send (⟨[1], false⟩ : MpscState Nat) 0 2
        = (⟨[1], false⟩, wakeup 0, SendResult.sendError 2)) :=
  c5_send_closed_channel_error ⟨[1], false⟩ 0 2

/-- Claim C6: releasing a Lock guard (Rust runs Drop on every exit path,
modelled by the single release function) unconditionally sets the stream's
locked flag to false; in particular after two guards were taken for the
same stream, releasing one clears the flag even though the other is still
held — locks are not reference-counted. -/
theorem c6_lock_release_unconditionally_clears {MSG : Type} (s : EventStreamData MSG) :
    Lock.drop (some s) = HandleResult.ok { s with locked := false } ∧
    Lock.drop (some (EventStream.lock (EventStream.lock s)))
      = HandleResult.ok { s with locked := false } :=
  ⟨rfl, rfl⟩

/-- Witness for C6 on a concrete unlocked stream: releasing one of two
overlapping guards clears the flag. -/
theorem c6_lock_release_unconditionally_clears_witness :
    Lock.drop (some (⟨[1], false, [0]⟩ : EventStreamData Nat))
      = HandleResult.ok ⟨[1], false, [0]⟩ ∧
    Lock.drop (some (EventStream.lock (EventStream.lock
        (⟨[1], false, [0]⟩ : EventStreamData Nat))))
      = HandleResult.ok ⟨[1], false, [0]⟩ :=
  c6_lock_release_unconditionally_clears ⟨[1], false, [0]⟩

/-- Claim C7: the Channel source's prepare reports ready (never with a
timeout) iff a message is cached in the one-slot lookahead or the
transport yields one, and whenever it reports ready a message is cached
in the lookahead afterwards; dispatch delivers the cached message if
present, else one freshly received message, and always returns true; and
a message moved into the lookahead by prepare is delivered by a
subsequent dispatch, never lost. -/
theorem c7_channel_lookahead_no_loss {MSG : Type} (d : ChannelData MSG) :
    (d.prepare.2.1 = true ↔ (d.peeked_value.isSome = true ∨ d.receiver ≠ [])) ∧
    d.prepare.2.2 = none ∧
    (d.prepare.2.1 = true → d.prepare.1.peeked_value.isSome = true) ∧
    (∀ m, d.peeked_value = some m →
      d.dispatch = ({ d with peeked_value := none }, some m, true)) ∧
    (d.peeked_value = none →
      d.dispatch = ({ d with receiver := (tryRecv d.receiver).2 },
        (tryRecv d.receiver).1, true)) ∧
    d.dispatch.2.2 = true ∧
    (∀ m, d.prepare.1.peeked_value = some m → d.prepare.1.dispatch.2.1 = some m) := by
  obtain ⟨pv, rc⟩ := d
  cases pv <;> cases rc <;>
    simp [ChannelData.prepare, ChannelData.dispatch, tryRecv]

/-- Witness for C7 on a channel source with empty lookahead and one
message 5 in the transport: prepare is ready with no timeout and caches 5,
and dispatch after prepare delivers 5. -/
theorem c7_channel_lookahead_no_loss_witness :
    ((⟨none, [5]⟩ : ChannelData Nat).prepare.2.1 = true ↔
      ((⟨none, [5]⟩ : ChannelData Nat).peeked_value.isSome = true ∨
        (⟨none, [5]⟩ : ChannelData Nat).receiver ≠ [])) ∧
    (⟨none, [5]⟩ : ChannelData Nat).prepare.2.2 = none ∧
    ((⟨none, [5]⟩ : ChannelData Nat).prepare.2.1 = true →
      (⟨none, [5]⟩ : ChannelData Nat).prepare.1.peeked_value.isSome = true) ∧
    (∀ m, (⟨none, [5]⟩ : ChannelData Nat).peeked_value = some m →
      (⟨none, [5]⟩ : ChannelData Nat).dispatch = (⟨none, [5]⟩, some m, true)) ∧
    ((⟨none, [5]⟩ : ChannelData Nat).peeked_value = none →
      (⟨none, [5]⟩ : ChannelData Nat).dispatch
        = (⟨none, (tryRecv [5]).2⟩, (tryRecv [5]).1, true)) ∧
    (⟨none, [5]⟩ : ChannelData Nat).dispatch.2.2 = true ∧
    (∀ m, (⟨none, [5]⟩ : ChannelData Nat).prepare.1.peeked_value = some m →
      (⟨none, [5]⟩ : ChannelData Nat).prepare.1.dispatch.2.1 = some m) :=
  c7_channel_lookahead_no_loss ⟨none, [5]⟩

/-- Claim C8: when dispatch fires on an EventStream source whose queue is
empty, or on a Channel source whose lookahead slot and transport are both
empty, it is a no-op — no callback invocation, no state change — and
still returns true (the source stays armed). -/
theorem c8_empty_dispatch_is_noop {MSG : Type} (sd : SourceData MSG)
    (d : ChannelData MSG)
    (h1 : sd.stream.events = []) (h2 : d.peeked_value = none) (h3 : d.receiver = []) :
    sd.dispatch = (sd, [], true) ∧ d.dispatch = (d, none, true) := by
  refine ⟨dispatch_empty sd h1, ?_⟩
  obtain ⟨pv, rc⟩ := d
  simp only at h2 h3
  subst h2
  subst h3
  rfl

/-- Witness for C8: concrete empty stream source and empty channel
source, both dispatches are no-ops returning true. -/
theorem c8_empty_dispatch_is_noop_witness :
    (⟨true, ⟨[], false, []⟩⟩ : SourceData Nat).stream.events = [] ∧
    (⟨none, []⟩ : ChannelData Nat).peeked_value = none ∧
    (⟨none, []⟩ : ChannelData Nat).receiver = [] ∧
    ((⟨true, ⟨[], false, []⟩⟩ : SourceData Nat).dispatch
        = (⟨true, ⟨[], false, []⟩⟩, [], true) ∧
     (⟨none, []⟩ : ChannelData Nat).dispatch = (⟨none, []⟩, none, true)) :=
  ⟨rfl, rfl, rfl, c8_empty_dispatch_is_noop ⟨true, ⟨[], false, []⟩⟩ ⟨none, []⟩ rfl rfl rfl⟩

/-- Claim C9: every StreamHandle operation (emit, lock, observe) on a
live stream (weak upgrade succeeds) has exactly the same effect on the
shared stream state as the corresponding EventStream method. -/
theorem c9_live_handle_equals_stream_methods {MSG : Type} (s : EventStreamData MSG)
    (msg : MSG) (obsId : Nat) :
    StreamHandle.emit (some s) msg = HandleResult.ok (EventStream.emit s msg) ∧
    StreamHandle.lock (some s) = HandleResult.ok (EventStream.lock s) ∧
    StreamHandle.observe (some s) obsId = HandleResult.ok (EventStream.observe s obsId) :=
  ⟨rfl, rfl, rfl⟩

/-- Witness for C9 on a concrete live stream: handle emit, lock and
observe coincide with the stream methods. -/
theorem c9_live_handle_equals_stream_methods_witness :
    StreamHandle.emit (some (⟨[1], false, [0]⟩ : EventStreamData Nat)) 2
      = HandleResult.ok (EventStream.emit (⟨[1], false, [0]⟩ : EventStreamData Nat) 2) ∧
    StreamHandle.lock (some (⟨[1], false, [0]⟩ : EventStreamData Nat))
      = HandleResult.ok (EventStream.lock (⟨[1], false, [0]⟩ : EventStreamData Nat)) ∧
    StreamHandle.observe (some (⟨[1], false, [0]⟩ : EventStreamData Nat)) 7
      = HandleResult.ok (EventStream.observe (⟨[1], false, [0]⟩ : EventStreamData Nat) 7) :=
  c9_live_handle_equals_stream_methods ⟨[1], false, [0]⟩ 2 7

/-- Claim C10: EventStream dispatch pops the front message before
checking whether a primary callback is registered: with no callback set,
dispatch on a non-empty queue discards the front message (it is popped,
nobody is invoked), and even after a primary callback is registered later
a full drain delivers exactly the remaining messages — the discarded
message is never delivered. -/
theorem c10_dispatch_pops_before_callback_check {MSG : Type} (sd : SourceData MSG)
    (m : MSG) (rest : List MSG)
    (hq : sd.stream.events = m :: rest) (hcb : sd.callback = false) :
    sd.dispatch = ({ sd with stream := { sd.stream with events := rest } },
      [Ev.pop m], true) ∧
    (m ∉ rest →
      cbTrace (dispatchN (EventStream.set_callback sd.dispatch.1) rest.length).2 = rest ∧
      m ∉ cbTrace (dispatchN (EventStream.set_callback sd.dispatch.1) rest.length).2) := by
  obtain ⟨cb, st⟩ := sd
  obtain ⟨ev, lk, obs⟩ := st
  simp only at hq hcb
  subst hq
  subst hcb
  have hd : SourceData.dispatch ⟨false, ⟨m :: rest, lk, obs⟩⟩
      = (⟨false, ⟨rest, lk, obs⟩⟩, [Ev.pop m], true) := by
    simp [SourceData.dispatch]
  refine ⟨hd, ?_⟩
  intro hm
  rw [hd]
  show cbTrace (dispatchN ⟨true, ⟨rest, lk, obs⟩⟩ rest.length).2 = rest ∧
    m ∉ cbTrace (dispatchN ⟨true, ⟨rest, lk, obs⟩⟩ rest.length).2
  rw [dispatchN_drain rest lk obs rest.length (Nat.le_refl _)]
  rw [cbTrace_popCbTrace]
  exact ⟨rfl, hm⟩

/-- Witness for C10: queue [5, 6] with no callback set: dispatch discards
5; after registering a callback, draining delivers exactly [6], never 5. -/
theorem c10_dispatch_pops_before_callback_check_witness :
    (⟨false, ⟨[5, 6], false, []⟩⟩ : SourceData Nat).stream.events = [5, 6] ∧
    (⟨false, ⟨[5, 6], false, []⟩⟩ : SourceData Nat).callback = false ∧
    ((⟨false, ⟨[5, 6], false, []⟩⟩ : SourceData Nat).dispatch
        = (⟨false, ⟨[6], false, []⟩⟩, [Ev.pop 5], true) ∧
     ((5 : Nat) ∉ [6] →
       cbTrace (dispatchN (EventStream.set_callback
         (⟨false, ⟨[5, 6], false, []⟩⟩ : SourceData Nat).dispatch.1) 1).2 = [6] ∧
       (5 : Nat) ∉ cbTrace (dispatchN (EventStream.set_callback
         (⟨false, ⟨[5, 6], false, []⟩⟩ : SourceData Nat).dispatch.1) 1).2)) :=
  ⟨rfl, rfl, c10_dispatch_pops_before_callback_check ⟨false, ⟨[5, 6], false, []⟩⟩ 5 [6] rfl rfl⟩

end Relm
